import Mathlib

/-
Verification of the django_local_library catalog application.

The data model (Author, Book, Genre, BookInstance) and the view behaviours
are embedded shallowly: database tables are lists of records, dates are
integers counting days, HTTP responses are a record of status code, redirect
location and rendered-form data.  The `index` view and the list-view page
sizes are translated from src/catalog/views.py.  The renewal form/view, the
my-borrowed view and the author-create view are not part of the sources
provided, so they are modelled from the specification, as marked on each
definition.
-/

namespace LocalLibrary

/-- Prefix test on character lists, used to build substring containment. -/
def isPrefixChars : List Char → List Char → Bool
  | [], _ => true
  | _ :: _, [] => false
  | a :: as, b :: bs => a == b && isPrefixChars as bs

/-- Substring containment on character lists: `containsChars n h` holds when
`n` occurs contiguously inside `h`. -/
def containsChars (needle : List Char) : List Char → Bool
  | [] => needle.isEmpty
  | c :: rest => isPrefixChars needle (c :: rest) || containsChars needle rest

/-- Case-insensitive substring containment, the semantics of the ORM
`icontains` lookup used in src/catalog/views.py. -/
def icontains (haystack needle : String) : Bool :=
  containsChars needle.toLower.toList haystack.toLower.toList

/-- An author record (catalog.models.Author). -/
structure Author where
  first_name : String
  last_name : String

/-- A genre record (catalog.models.Genre). -/
structure Genre where
  name : String

/-- A book record (catalog.models.Book); foreign keys are numeric ids. -/
structure Book where
  title : String
  summary : String
  isbn : String
  authorId : Nat

/-- A loanable copy (catalog.models.BookInstance).  `due_back` is a day
number, `borrower` an optional user id, `status` one of the chars
available, on-loan, maintenance, reserved. -/
structure BookInstance where
  uid : Nat
  bookId : Nat
  imprint : String
  due_back : Int
  borrower : Option Nat
  status : Char

/-- The database state the views query. -/
structure Database where
  books : List Book
  authors : List Author
  genres : List Genre
  instances : List BookInstance

/-- The template context produced by the index view. -/
structure IndexContext where
  num_books : Nat
  num_instances : Nat
  num_authors : Nat
  num_instances_available : Nat
  num_harry_potter_books : Nat
  num_history_genres : Nat

/-- The index view of src/catalog/views.py: counts of books, instances and
authors, instances with status exactly available, books whose title
case-insensitively contains the words harry potter, and genres whose name
case-insensitively contains the fragment histor. -/
def index (db : Database) : IndexContext :=
  { num_books := db.books.length
    num_instances := db.instances.length
    num_authors := db.authors.length
    num_instances_available :=
      (db.instances.filter (fun bi => bi.status == 'a')).length
    num_harry_potter_books :=
      (db.books.filter (fun b => icontains b.title "harry potter")).length
    num_history_genres :=
      (db.genres.filter (fun g => icontains g.name "histor")).length }

/-- Page size of BookListView in src/catalog/views.py. -/
def BookListView_paginate_by : Nat := 3

/-- Page size of AuthorListView in src/catalog/views.py. -/
def AuthorListView_paginate_by : Nat := 3

/-- Modelled from the spec: the page size of the loaned-books list views,
whose source is not under src/; the spec and the view tests fix it at 10. -/
def LoanedBooksByUserListView_paginate_by : Nat := 10

/-- Modelled from the spec: framework pagination slicing.  Page `k`
(1-based) of a list holds the `per` items starting at offset `(k-1)*per`. -/
def page_items (per : Nat) (items : List α) (k : Nat) : List α :=
  (items.drop ((k - 1) * per)).take per

/-- Modelled from the spec: number of pages is the count divided by the page
size, rounded up. -/
def num_pages (per count : Nat) : Nat := (count + per - 1) / per

/-- Modelled from the spec: the template context flag `is_paginated` is set
when there is more than one page. -/
def is_paginated (per count : Nat) : Bool := decide (1 < num_pages per count)

/-- An HTTP response together with the rendered-form data the tests inspect:
numeric status, optional redirect location, field-level form errors as
(field, message) pairs, and the initial value the renewal form is seeded
with on GET. -/
structure Response where
  status : Nat
  location : Option String
  form_errors : List (String × String)
  form_initial : Option Int

/-- The login page path used by the authentication redirects. -/
def login_url : String := "/accounts/login/"

/-- The path of the my-borrowed list view. -/
def my_borrowed_path : String := "/catalog/mybooks/"

/-- Modelled from the spec: the path of the all-loaned listing that a
successful renewal redirects to; its URL configuration is not under src/. -/
def all_loaned_url : String := "/catalog/loaned/"

/-- Modelled from the spec: the permission gating the renewal view, not
under src/; a distinct permission from the author-creation one. -/
def renew_permission : String := "catalog.can_renew"

/-- Modelled from the spec: the permission gating author creation, not
under src/. -/
def add_author_permission : String := "catalog.add_author"

/-- Permission check: a user holds a permission when it is in their list. -/
def has_perm (perms : List String) (p : String) : Bool := perms.contains p

/-- Modelled from the spec: RenewBookForm.clean_renewal_date, not under
src/.  A date strictly before today is rejected with the message Invalid
date - renewal in past; a date more than four weeks after today is rejected
with the message Invalid date - renewal more than 4 weeks ahead; any other
date is accepted. -/
def clean_renewal_date (today d : Int) : Except String Int :=
  if d < today then Except.error "Invalid date - renewal in past"
  else if today + 4 * 7 < d then
    Except.error "Invalid date - renewal more than 4 weeks ahead"
  else Except.ok d

/-- Modelled from the spec: the renew-book-librarian view, not under src/.
Unauthenticated requests redirect to login carrying the requested path;
authenticated requests without the renewal permission are forbidden; a
missing record is not-found; GET renders the form (200) seeded with today
plus three weeks; POST validates the submitted date, on success stores it
as the due-back date and redirects to the all-loaned listing, on failure
re-renders the form (200) with a field error on renewal_date and leaves the
record unchanged.  Returns the response and the stored record afterwards. -/
def renew_book_librarian (authenticated : Bool) (perms : List String)
    (record : Option BookInstance) (today : Int) (isPost : Bool)
    (renewal_date : Int) (path : String) : Response × Option BookInstance :=
  if authenticated = false then
    ({ status := 302, location := some (login_url ++ "?next=" ++ path),
       form_errors := [], form_initial := none }, record)
  else if has_perm perms renew_permission = false then
    ({ status := 403, location := none, form_errors := [],
       form_initial := none }, record)
  else
    match record with
    | none =>
        ({ status := 404, location := none, form_errors := [],
           form_initial := none }, none)
    | some bi =>
        if isPost then
          match clean_renewal_date today renewal_date with
          | Except.ok d =>
              ({ status := 302, location := some all_loaned_url,
                 form_errors := [], form_initial := none },
               some { bi with due_back := d })
          | Except.error msg =>
              ({ status := 200, location := none,
                 form_errors := [("renewal_date", msg)],
                 form_initial := none }, some bi)
        else
          ({ status := 200, location := none, form_errors := [],
             form_initial := some (today + 3 * 7) }, some bi)

/-- The borrowed-books filter: instances borrowed by user `u` with on-loan
status. -/
def borrowed_by (u : Nat) (bi : BookInstance) : Bool :=
  bi.borrower == some u && bi.status == 'o'

/-- Ascending due-back ordering on book instances. -/
def dueOrder (a b : BookInstance) : Prop := a.due_back ≤ b.due_back

instance dueOrder_decidable : DecidableRel dueOrder :=
  fun a b => inferInstanceAs (Decidable (a.due_back ≤ b.due_back))

instance dueOrder_total : IsTotal BookInstance dueOrder :=
  ⟨fun a b => Int.le_total a.due_back b.due_back⟩

instance dueOrder_trans : IsTrans BookInstance dueOrder :=
  ⟨fun _ _ _ h1 h2 => le_trans h1 h2⟩

/-- Modelled from the spec: the queryset of the my-borrowed view, not under
src/ — the instances borrowed by the current user with on-loan status,
ordered ascending by due-back date. -/
def my_borrowed_queryset (u : Nat) (instances : List BookInstance) :
    List BookInstance :=
  List.insertionSort dueOrder (instances.filter (borrowed_by u))

/-- Modelled from the spec: the my-borrowed view, not under src/.
Unauthenticated requests are redirected to the login page with the
originally requested path as the next query parameter; authenticated
requests get 200 and the filtered, ordered queryset. -/
def my_borrowed_view (authenticated : Bool) (u : Nat)
    (instances : List BookInstance) : Response × List BookInstance :=
  if authenticated then
    ({ status := 200, location := none, form_errors := [],
       form_initial := none }, my_borrowed_queryset u instances)
  else
    ({ status := 302,
       location := some (login_url ++ "?next=" ++ my_borrowed_path),
       form_errors := [], form_initial := none }, [])

/-- The author-detail page path for a given primary key. -/
def author_detail_url (pk : Nat) : String :=
  "/catalog/author/" ++ toString pk

/-- Modelled from the spec: the author-create view, not under src/.  It is
gated by the add-author permission; an authenticated user without it gets
403, with it GET renders the form (200) and a successful POST redirects to
the detail page of the newly created author. -/
def author_create (authenticated : Bool) (perms : List String)
    (isPost : Bool) (newId : Nat) (path : String) : Response :=
  if authenticated = false then
    { status := 302, location := some (login_url ++ "?next=" ++ path),
      form_errors := [], form_initial := none }
  else if has_perm perms add_author_permission = false then
    { status := 403, location := none, form_errors := [],
      form_initial := none }
  else if isPost then
    { status := 302, location := some (author_detail_url newId),
      form_errors := [], form_initial := none }
  else
    { status := 200, location := none, form_errors := [],
      form_initial := none }

/-- A sample author record, used to instantiate theorems. -/
def sampleAuthor : Author := { first_name := "Charles", last_name := "Surname" }

/-- A sample loanable copy, used to instantiate theorems. -/
def sampleInstance : BookInstance :=
  { uid := 1, bookId := 1, imprint := "whatever", due_back := 5,
    borrower := some 1, status := 'o' }

lemma clean_renewal_date_past (today d : Int) (h : d < today) :
    clean_renewal_date today d
      = Except.error "Invalid date - renewal in past" := by
  unfold clean_renewal_date
  rw [if_pos h]

lemma clean_renewal_date_future (today d : Int) (h : today + 4 * 7 < d) :
    clean_renewal_date today d
      = Except.error "Invalid date - renewal more than 4 weeks ahead" := by
  unfold clean_renewal_date
  rw [if_neg (by omega), if_pos h]

lemma clean_renewal_date_ok (today d : Int) (h1 : today ≤ d)
    (h2 : d ≤ today + 4 * 7) :
    clean_renewal_date today d = Except.ok d := by
  unfold clean_renewal_date
  rw [if_neg (by omega), if_neg (by omega)]

/-- Claim C1: a renewal date strictly before today is rejected with the
field error Invalid date - renewal in past, a date more than four weeks
after today is rejected with the field error Invalid date - renewal more
than 4 weeks ahead, and every date in the closed interval from today to
today plus four weeks is accepted as valid. -/
theorem renewal_date_validation (today d : Int) :
    (d < today →
      clean_renewal_date today d
        = Except.error "Invalid date - renewal in past") ∧
    (today + 4 * 7 < d →
      clean_renewal_date today d
        = Except.error "Invalid date - renewal more than 4 weeks ahead") ∧
    (today ≤ d → d ≤ today + 4 * 7 →
      clean_renewal_date today d = Except.ok d) :=
  ⟨clean_renewal_date_past today d, clean_renewal_date_future today d,
   clean_renewal_date_ok today d⟩

/-- Witness for C1: concrete past, far-future and in-window dates. -/
theorem renewal_date_validation_witness :
    clean_renewal_date 0 (-7)
      = Except.error "Invalid date - renewal in past" ∧
    clean_renewal_date 0 35
      = Except.error "Invalid date - renewal more than 4 weeks ahead" ∧
    clean_renewal_date 0 28 = Except.ok 28 :=
  ⟨(renewal_date_validation 0 (-7)).1 (by decide),
   (renewal_date_validation 0 35).2.1 (by decide),
   (renewal_date_validation 0 28).2.2 (by decide) (by decide)⟩

/-- Claim C2: list views paginate at a fixed page size of 3 or 10 depending
on the view, exposing is_paginated to the context; for the authors list
(configured page size 3 in src/catalog/views.py) with 13 authors, every
full page holds exactly the configured page size and the last page holds
the remainder. -/
theorem author_list_pagination (l : List Author) (k : Nat)
    (hlen : l.length = 13) :
    is_paginated AuthorListView_paginate_by l.length = true ∧
    num_pages AuthorListView_paginate_by l.length = 5 ∧
    ([AuthorListView_paginate_by, BookListView_paginate_by,
        LoanedBooksByUserListView_paginate_by].all
          (fun per => per == 3 || per == 10)) = true ∧
    (1 ≤ k → k < num_pages AuthorListView_paginate_by l.length →
      (page_items AuthorListView_paginate_by l k).length
        = AuthorListView_paginate_by) ∧
    (page_items AuthorListView_paginate_by l
        (num_pages AuthorListView_paginate_by l.length)).length
      = l.length % AuthorListView_paginate_by := by
  rw [hlen]
  refine ⟨by decide, by decide, by decide, fun h1 h2 => ?_, ?_⟩
  · have h5 : num_pages AuthorListView_paginate_by 13 = 5 := by decide
    rw [h5] at h2
    simp only [page_items, AuthorListView_paginate_by, List.length_take,
      List.length_drop, hlen]
    omega
  · have h5 : num_pages AuthorListView_paginate_by 13 = 5 := by decide
    rw [h5]
    simp only [page_items, AuthorListView_paginate_by, List.length_take,
      List.length_drop, hlen]
    omega

/-- Witness for C2: a concrete list of 13 authors, evaluated at page 2. -/
theorem author_list_pagination_witness :
    (page_items AuthorListView_paginate_by (List.replicate 13 sampleAuthor)
        2).length = AuthorListView_paginate_by :=
  (author_list_pagination (List.replicate 13 sampleAuthor) 2 rfl).2.2.2.1
    (by decide) (by decide)

/-- Claim C3: the renew-book-librarian endpoint redirects (302) an
unauthenticated requester to the login page, returns 403 for an
authenticated requester without the renewal permission, 404 when the
targeted record does not exist, and 200 on GET with permission and an
existing record. -/
theorem renew_view_access_matrix (perms : List String) (bi : BookInstance)
    (today rd : Int) (p : String) :
    ((renew_book_librarian false perms (some bi) today false rd p).1.status
        = 302 ∧
      (renew_book_librarian false perms (some bi) today false rd p).1.location
        = some (login_url ++ "?next=" ++ p)) ∧
    (has_perm perms renew_permission = false →
      (renew_book_librarian true perms (some bi) today false rd p).1.status
        = 403) ∧
    (renew_book_librarian true [renew_permission] none today false rd
        p).1.status = 404 ∧
    (renew_book_librarian true [renew_permission] (some bi) today false rd
        p).1.status = 200 := by
  refine ⟨⟨rfl, rfl⟩, fun h => ?_, ?_, ?_⟩
  · simp [renew_book_librarian, h]
  · simp [renew_book_librarian, has_perm]
  · simp [renew_book_librarian, has_perm]

/-- Witness for C3: the 403 branch at a concrete permissionless request. -/
theorem renew_view_access_matrix_witness :
    (renew_book_librarian true [] (some sampleInstance) 0 false 0
        "/catalog/renew/").1.status = 403 :=
  (renew_view_access_matrix [] sampleInstance 0 0 "/catalog/renew/").2.1
    (by decide)

/-- Claim C4: for an authenticated user the my-borrowed list contains
exactly the instances whose borrower is that user with on-loan status, in
non-decreasing order of due-back date. -/
theorem my_borrowed_list_contents (u : Nat) (instances : List BookInstance) :
    ((my_borrowed_view true u instances).2).all (borrowed_by u) = true ∧
    List.Perm ((my_borrowed_view true u instances).2)
      (instances.filter (borrowed_by u)) ∧
    List.Sorted dueOrder ((my_borrowed_view true u instances).2) := by
  have hview : (my_borrowed_view true u instances).2
      = my_borrowed_queryset u instances := rfl
  have hperm : List.Perm (my_borrowed_queryset u instances)
      (instances.filter (borrowed_by u)) :=
    List.perm_insertionSort dueOrder (instances.filter (borrowed_by u))
  refine ⟨?_, ?_, ?_⟩
  · rw [hview, List.all_eq_true]
    intro bi hbi
    exact (List.mem_filter.mp (hperm.mem_iff.mp hbi)).2
  · rw [hview]
    exact hperm
  · rw [hview]
    exact List.sorted_insertionSort dueOrder (instances.filter (borrowed_by u))

/-- Claim C5: an unauthenticated request to the my-borrowed view is
redirected to the login page with the originally requested path carried in
the next query parameter. -/
theorem my_borrowed_redirect_unauthenticated (u : Nat)
    (instances : List BookInstance) :
    (my_borrowed_view false u instances).1.status = 302 ∧
    (my_borrowed_view false u instances).1.location
      = some "/accounts/login/?next=/catalog/mybooks/" :=
  ⟨rfl, rfl⟩

/-- Claim C6: a valid renewal submission by a permitted user stores the
submitted date as the due-back date and redirects to the all-loaned
listing. -/
theorem renew_success_updates_and_redirects (perms : List String)
    (bi : BookInstance) (today d : Int) (p : String)
    (hperm : has_perm perms renew_permission = true)
    (h1 : today ≤ d) (h2 : d ≤ today + 4 * 7) :
    (renew_book_librarian true perms (some bi) today true d p).1.status
        = 302 ∧
    (renew_book_librarian true perms (some bi) today true d p).1.location
        = some all_loaned_url ∧
    (renew_book_librarian true perms (some bi) today true d p).2
        = some { bi with due_back := d } := by
  simp [renew_book_librarian, hperm, clean_renewal_date_ok today d h1 h2]

/-- Witness for C6: a concrete renewal two weeks ahead. -/
theorem renew_success_witness :
    (renew_book_librarian true [renew_permission] (some sampleInstance) 0
        true 14 "/catalog/renew/").2
      = some { sampleInstance with due_back := 14 } :=
  (renew_success_updates_and_redirects [renew_permission] sampleInstance 0 14
    "/catalog/renew/" (by decide) (by decide) (by decide)).2.2

/-- Claim C7: a renewal submission failing date validation re-renders the
form with status 200 and a field error on renewal_date, leaving the stored
record unchanged. -/
theorem renew_invalid_rerenders_without_mutation (perms : List String)
    (bi : BookInstance) (today d : Int) (p msg : String)
    (hperm : has_perm perms renew_permission = true)
    (herr : clean_renewal_date today d = Except.error msg) :
    (renew_book_librarian true perms (some bi) today true d p).1.status
        = 200 ∧
    (renew_book_librarian true perms (some bi) today true d p).1.form_errors
        = [("renewal_date", msg)] ∧
    (renew_book_librarian true perms (some bi) today true d p).2
        = some bi := by
  simp [renew_book_librarian, hperm, herr]

/-- Witness for C7: a concrete submission one week in the past. -/
theorem renew_invalid_witness :
    (renew_book_librarian true [renew_permission] (some sampleInstance) 0
        true (-7) "/catalog/renew/").2 = some sampleInstance :=
  (renew_invalid_rerenders_without_mutation [renew_permission]
    sampleInstance 0 (-7) "/catalog/renew/"
    "Invalid date - renewal in past" (by decide)
    (clean_renewal_date_past 0 (-7) (by decide))).2.2

/-- Claim C8: a GET of the renewal form by a permitted user seeds the
renewal_date field with today plus exactly three weeks. -/
theorem renew_get_initial_three_weeks (perms : List String)
    (bi : BookInstance) (today rd : Int) (p : String)
    (hperm : has_perm perms renew_permission = true) :
    (renew_book_librarian true perms (some bi) today false rd
        p).1.form_initial = some (today + 3 * 7) := by
  simp [renew_book_librarian, hperm]

/-- Witness for C8: the concrete initial value at day 0. -/
theorem renew_get_initial_witness :
    (renew_book_librarian true [renew_permission] (some sampleInstance) 0
        false 0 "/catalog/renew/").1.form_initial = some 21 :=
  renew_get_initial_three_weeks [renew_permission] sampleInstance 0 0
    "/catalog/renew/" (by decide)

/-- Claim C9: author creation is gated by the add-author permission,
distinct from the renewal permission: an authenticated user without it
(even one holding the renewal permission) gets 403, one with it gets 200
on GET, and a successful POST redirects to the new author detail page. -/
theorem author_create_permission_gate (perms : List String) (newId : Nat)
    (p : String) :
    add_author_permission ≠ renew_permission ∧
    (has_perm perms add_author_permission = false →
      (author_create true perms false newId p).status = 403) ∧
    has_perm [renew_permission] add_author_permission = false ∧
    (author_create true [add_author_permission] false newId p).status
        = 200 ∧
    (author_create true [add_author_permission] true newId p).status
        = 302 ∧
    (author_create true [add_author_permission] true newId p).location
        = some (author_detail_url newId) := by
  refine ⟨by decide, fun h => ?_, by decide, ?_, ?_, ?_⟩
  · simp [author_create, h]
  · simp [author_create, has_perm]
  · simp [author_create, has_perm]
  · simp [author_create, has_perm]

/-- Witness for C9: a holder of only the renewal permission is refused. -/
theorem author_create_gate_witness :
    (author_create true [renew_permission] false 2
        "/catalog/author/create/").status = 403 :=
  (author_create_permission_gate [renew_permission] 2
    "/catalog/author/create/").2.1 (by decide)

/-- Claim C10: the index view counts available instances as those with
status exactly the available char (hence at most the total instance
count), books whose title case-insensitively contains harry potter, and
genres whose name case-insensitively contains histor. -/
theorem index_view_counts (db : Database) :
    (index db).num_instances_available
        = db.instances.countP (fun bi => bi.status == 'a') ∧
    (index db).num_instances_available ≤ (index db).num_instances ∧
    (index db).num_harry_potter_books
        = db.books.countP (fun b => icontains b.title "harry potter") ∧
    (index db).num_history_genres
        = db.genres.countP (fun g => icontains g.name "histor") := by
  refine ⟨?_, ?_, ?_, ?_⟩
  · simp [index, List.countP_eq_length_filter]
  · exact List.length_filter_le _ _
  · simp [index, List.countP_eq_length_filter]
  · simp [index, List.countP_eq_length_filter]

end LocalLibrary
